import Mathlib

/-!
Shallow embedding of the `reden` prompt library (`src/packages/reden.ai/src/prompt/prompt.ts`,
the second, id-bearing revision of the file) together with models of its external
collaborators (the template renderer and the JSON builtins), and theorems settling the
specification claims about it.
-/

namespace Reden

/-- Template parameter values, from the source type `PromptTemplateValue`:
`string | number | boolean | BasicPromptValue[] | Record<string, BasicPromptValue> | null | undefined`.
The IEEE-754 `number` type is modelled by four constructors: `num` carries an integer
and stands in for every JSON-faithful finite number (a finite double round-trips JSON
text exactly), while `nan`, `infinity` (either sign) and `negZero` are the values whose
JSON serialisation is lossy (`NaN` and `±Infinity` serialise to `null`, `-0` to `0`).
Structural equality on these constructors agrees with `Object.is` — the primitive
comparison deep-equality uses — which holds `NaN` equal to `NaN` and `-0` distinct
from `0`. The `undef` constructor models JavaScript's `undefined`, a first-class value
of the live params map that JSON serialisation strips. -/
inductive TValue where
  | str (s : String) : TValue
  | num (n : Int) : TValue
  | nan : TValue
  | negZero : TValue
  | infinity (neg : Bool) : TValue
  | bool (b : Bool) : TValue
  | null : TValue
  | undef : TValue
  | arr (xs : List TValue) : TValue
  | obj (fs : List (String × TValue)) : TValue
deriving Repr

/-- A params map, modelling a JavaScript `Record<string, PromptTemplateValue>` as an
insertion-ordered association list (JavaScript objects preserve key insertion order). -/
abbrev Params := List (String × TValue)

/-- Key lookup in a params map: the value of the first entry with the given key. -/
def lookupKey (k : String) : Params → Option TValue
  | [] => none
  | (k2, v) :: rest => if k2 = k then some v else lookupKey k rest

/-- JavaScript object spread `{ ...old, ...next }` on params maps: the keys of `old`
in their original order, each taking `next`'s value when `next` also has the key,
followed by the keys of `next` that are absent from `old`, in `next`'s order. -/
def jsSpread (old next : Params) : Params :=
  old.map (fun kv => (kv.1, (lookupKey kv.1 next).getD kv.2)) ++
    next.filter (fun kv => (lookupKey kv.1 old).isNone)

/-- A delimiter pair `(open tag, close tag)`, from `Mustache.OpeningAndClosingTags`. -/
abbrev Delims := String × String

/-- The module constant `DEFAULT_DELIMITERS = ['[[', ']]']`. -/
def DEFAULT_DELIMITERS : Delims := ("[[", "]]")

/-- Errors thrown by the library. The constructor's delimiter sanity check throws an
error whose message says the delimiters are invalid; the spec calls this kind
`ConfigurationError`. -/
inductive PromptError where
  | configurationError (msg : String) : PromptError
deriving Repr

/-- The state of one constructed Prompt object. `params` and `delimiters` model the
closure variables that `setParams` / `setDelimiters` reassign; `paramsExposed` and
`delimitersExposed` model the readonly `_params` / `_delimiters` properties, which are
assigned once at construction and never updated. `partials` models the constructor-local
`const partials = {}`. The construction `config` is stored unchanged. -/
structure PromptState where
  id : String
  template : String
  params : Params
  config : Option Delims
  delimiters : Delims
  paramsExposed : Params
  delimitersExposed : Delims
  partials : List (String × String)
deriving Repr

/-- The constructor `prompt(template, params = {}, config = {})`. The identifier
generator collaborator (`uuid()`) is abstracted as the `id` argument, and the
process-wide mutable `activeDelimiters` as the `active` argument. It resolves
`config.delimiters ?? activeDelimiters`, then throws a configuration error when either
resolved tag is empty (checking the open tag first, as the source's `for` loop does). -/
def promptCtor (id : String) (template : String) (params : Params)
    (config : Option Delims) (active : Delims) : Except PromptError PromptState :=
  let d := config.getD active
  if d.1.length = 0 ∨ d.2.length = 0 then
    .error (.configurationError
      ("Invalid prompt delimiters: " ++ d.1 ++ ", " ++ d.2 ++
        ". Delimiters must be at least 1 character long."))
  else
    .ok { id := id, template := template, params := params, config := config,
          delimiters := d, paramsExposed := params, delimitersExposed := d,
          partials := [] }

/-- `setParams(nextParams, opts)`: reassigns the closure variable `params` to
`nextParams` when `opts.override` is truthy, else to `{ ...params, ...nextParams }`,
and returns the same Prompt object. -/
def setParams (p : PromptState) (next : Params) (override : Bool) : PromptState :=
  { p with params := if override then next else jsSpread p.params next }

/-- `setDelimiters(openTag, closeTag)`: reassigns the closure variable `_delimiters`
to `[openTag, closeTag]` and returns the same Prompt object. No validation occurs. -/
def setDelimiters (p : PromptState) (openTag closeTag : String) : PromptState :=
  { p with delimiters := (openTag, closeTag) }

/-- The serialised prompt shape produced by `_toObject`: `id` and `template` are always
present; `params` and `config` are optional keys. -/
structure SerialisedPrompt where
  id : String
  template : String
  params : Option Params
  config : Option Delims
deriving Repr

/-- `toObject()`, via the private `_toObject(_export, template, params, config)`:
always emits `id` and `template`; adds `params` when `Object.keys(params).length` is
non-zero, and `config` when `Object.keys(config).length` is non-zero (with `config`
modelled as `Option Delims`, the empty object `{}` is `none`). It reads the current
closure variable `params`, not the frozen `_params` property. -/
def toObject (p : PromptState) : SerialisedPrompt :=
  { id := p.id, template := p.template,
    params := if p.params.length = 0 then none else some p.params,
    config := p.config }

/-- A renderer-failure value: the template renderer collaborator (Mustache) is external;
a failure carries its message, which the source's `toString` lets propagate unwrapped.
The spec calls this kind `RenderError`. -/
abbrev RenderError := String

/-- The type of the template renderer collaborator:
`render(template, view, partials, delimiters)` producing a string or failing. -/
abbrev Renderer := String → Params → List (String × String) → Delims →
  Except RenderError String

/-- `toString()`, via the private `_toString`: a pure pass-through to
`Mustache.render(template, params, partials, _delimiters)` with the current closure
variables; any renderer failure propagates to the caller. -/
def promptToString (render : Renderer) (p : PromptState) : Except RenderError String :=
  render p.template p.params p.partials p.delimiters

/-- The mutating operations available on a constructed Prompt
(`toString` / `toObject` / `toJSON` are observers and modify nothing). -/
inductive PromptOp where
  | setParamsOp (next : Params) (override : Bool) : PromptOp
  | setDelimitersOp (openTag closeTag : String) : PromptOp
deriving Repr

/-- Apply one operation to a Prompt's state. -/
def applyOp (p : PromptState) : PromptOp → PromptState
  | .setParamsOp next override => setParams p next override
  | .setDelimitersOp o c => setDelimiters p o c

/-- Apply a sequence of operations, left to right. -/
def applyOps (p : PromptState) (ops : List PromptOp) : PromptState :=
  ops.foldl applyOp p

/-- `prompt.overrideGlobalDelimiters(openTag, closeTag)`: replaces the process-wide
`activeDelimiters` value (modelled as explicit state) with the new pair. -/
def overrideGlobalDelimiters (openTag closeTag : String) (_active : Delims) : Delims :=
  (openTag, closeTag)

/-- The process-wide state: the current default delimiter pair together with the
Prompts constructed so far. -/
structure World where
  active : Delims
  prompts : List PromptState
deriving Repr

/-- Construct a Prompt in a world: reads the current process-wide default pair; when
construction succeeds the new Prompt joins the store, and a constructor throw leaves
the world unchanged. -/
def worldConstruct (id template : String) (params : Params) (config : Option Delims)
    (w : World) : World :=
  match promptCtor id template params config w.active with
  | .ok p => { w with prompts := w.prompts ++ [p] }
  | .error _ => w

/-- Run `overrideGlobalDelimiters` in a world: only the default pair changes. -/
def worldOverride (openTag closeTag : String) (w : World) : World :=
  { w with active := overrideGlobalDelimiters openTag closeTag w.active }

/-- JSON values: the domain of `JSON.parse`. Unlike `TValue` there is no `undefined`. -/
inductive JValue where
  | str (s : String) : JValue
  | num (n : Int) : JValue
  | bool (b : Bool) : JValue
  | null : JValue
  | arr (xs : List JValue) : JValue
  | obj (fs : List (String × JValue)) : JValue
deriving Repr

mutual

/-- Model of the JS builtin pipeline `JSON.parse(JSON.stringify(v))` on our value
domain, as the JSON value the serialised text denotes: `undefined` at top level
serialises to nothing (`none`), `NaN` and `±Infinity` serialise to `null`, and `-0`
serialises to `0`. -/
def jsonOf : TValue → Option JValue
  | .str s => some (.str s)
  | .num n => some (.num n)
  | .nan => some .null
  | .negZero => some (.num 0)
  | .infinity _ => some .null
  | .bool b => some (.bool b)
  | .null => some .null
  | .undef => none
  | .arr xs => some (.arr (jsonOfArr xs))
  | .obj fs => some (.obj (jsonOfFields fs))

/-- Array elements: `JSON.stringify` turns an `undefined` element into `null`. -/
def jsonOfArr : List TValue → List JValue
  | [] => []
  | v :: vs => ((jsonOf v).getD .null) :: jsonOfArr vs

/-- Object fields: `JSON.stringify` drops a key whose value is `undefined`. -/
def jsonOfFields : List (String × TValue) → List (String × JValue)
  | [] => []
  | (k, v) :: fs =>
    match jsonOf v with
    | some j => (k, j) :: jsonOfFields fs
    | none => jsonOfFields fs

end

mutual

/-- The canonical injection of parsed JSON values back into the JS value domain. -/
def jvalToT : JValue → TValue
  | .str s => .str s
  | .num n => .num n
  | .bool b => .bool b
  | .null => .null
  | .arr xs => .arr (jvalToTArr xs)
  | .obj fs => .obj (jvalToTFields fs)

/-- Injection of JSON arrays. -/
def jvalToTArr : List JValue → List TValue
  | [] => []
  | v :: vs => jvalToT v :: jvalToTArr vs

/-- Injection of JSON object fields. -/
def jvalToTFields : List (String × JValue) → List (String × TValue)
  | [] => []
  | (k, v) :: fs => (k, jvalToT v) :: jvalToTFields fs

end

mutual

/-- `true` when a value is JSON-faithful: it contains no `undefined`, `NaN`,
`Infinity`, `-Infinity` or `-0` anywhere — exactly the values `JSON.stringify`
does not preserve. -/
def jsonSafe : TValue → Bool
  | .str _ => true
  | .num _ => true
  | .nan => false
  | .negZero => false
  | .infinity _ => false
  | .bool _ => true
  | .null => true
  | .undef => false
  | .arr xs => jsonSafeArr xs
  | .obj fs => jsonSafeFields fs

/-- `jsonSafe` over array elements. -/
def jsonSafeArr : List TValue → Bool
  | [] => true
  | v :: vs => jsonSafe v && jsonSafeArr vs

/-- `jsonSafe` over object field values. -/
def jsonSafeFields : List (String × TValue) → Bool
  | [] => true
  | (_, v) :: fs => jsonSafe v && jsonSafeFields fs

end

/-- `JSON.parse(JSON.stringify(v))` read back as a JS value. -/
def roundTrip (v : TValue) : Option TValue := (jsonOf v).map jvalToT

/-- The JS object a `SerialisedPrompt` is: the value handed to `JSON.stringify` by
`toJSON`, with `params` / `config` keys present exactly when `toObject` emitted them
(a present config is the object `{ delimiters: [open, close] }`). -/
def serialiseJs (s : SerialisedPrompt) : TValue :=
  .obj ([("id", .str s.id), ("template", .str s.template)] ++
    (match s.params with
      | none => []
      | some ps => [("params", .obj ps)]) ++
    (match s.config with
      | none => []
      | some d => [("config", .obj [("delimiters", .arr [.str d.1, .str d.2])])]))

/-- `toJSON()` = `JSON.stringify(_toObject(...))`, modelled into the JSON-value
domain (the JSON value the emitted text denotes). -/
def promptToJSON (p : PromptState) : Option JValue :=
  jsonOf (serialiseJs (toObject p))

mutual

/-- Stringify-then-parse is the identity on JSON-faithful values. -/
theorem jvalToT_jsonOf (v : TValue) (h : jsonSafe v = true) :
    (jsonOf v).map jvalToT = some v := by
  match v with
  | .str s => rfl
  | .num n => rfl
  | .nan => simp [jsonSafe] at h
  | .negZero => simp [jsonSafe] at h
  | .infinity b => simp [jsonSafe] at h
  | .bool b => rfl
  | .null => rfl
  | .undef => simp [jsonSafe] at h
  | .arr xs =>
      have h1 : jsonSafeArr xs = true := by simpa [jsonSafe] using h
      simp [jsonOf, jvalToT, jvalToTArr_jsonOfArr xs h1]
  | .obj fs =>
      have h1 : jsonSafeFields fs = true := by simpa [jsonSafe] using h
      simp [jsonOf, jvalToT, jvalToTFields_jsonOfFields fs h1]

/-- Stringify-then-parse is the identity on arrays of JSON-faithful values. -/
theorem jvalToTArr_jsonOfArr (xs : List TValue) (h : jsonSafeArr xs = true) :
    jvalToTArr (jsonOfArr xs) = xs := by
  match xs with
  | [] => rfl
  | v :: vs =>
      have hv : jsonSafe v = true := by
        have := h; simp [jsonSafeArr, Bool.and_eq_true] at this; exact this.1
      have hvs : jsonSafeArr vs = true := by
        have := h; simp [jsonSafeArr, Bool.and_eq_true] at this; exact this.2
      have hmap := jvalToT_jsonOf v hv
      cases hj : jsonOf v with
      | none => rw [hj] at hmap; simp at hmap
      | some j =>
          rw [hj] at hmap
          have hjv : jvalToT j = v := by simpa using hmap
          simp [jsonOfArr, jvalToTArr, hj, hjv, jvalToTArr_jsonOfArr vs hvs]

/-- Stringify-then-parse is the identity on object fields with JSON-faithful values. -/
theorem jvalToTFields_jsonOfFields (fs : List (String × TValue))
    (h : jsonSafeFields fs = true) : jvalToTFields (jsonOfFields fs) = fs := by
  match fs with
  | [] => rfl
  | (k, v) :: rest =>
      have hv : jsonSafe v = true := by
        have := h; simp [jsonSafeFields, Bool.and_eq_true] at this; exact this.1
      have hrest : jsonSafeFields rest = true := by
        have := h; simp [jsonSafeFields, Bool.and_eq_true] at this; exact this.2
      have hmap := jvalToT_jsonOf v hv
      cases hj : jsonOf v with
      | none => rw [hj] at hmap; simp at hmap
      | some j =>
          rw [hj] at hmap
          have hjv : jvalToT j = v := by simpa using hmap
          simp [jsonOfFields, jvalToTFields, hj, hjv,
            jvalToTFields_jsonOfFields rest hrest]

end

/-- `roundTrip` is the identity on JSON-faithful values. -/
theorem roundTrip_eq_of_jsonSafe (v : TValue) (h : jsonSafe v = true) :
    roundTrip v = some v :=
  jvalToT_jsonOf v h

/-- Lookup distributes over append, preferring the left list. -/
theorem lookupKey_append (k : String) (a b : Params) :
    lookupKey k (a ++ b) =
      match lookupKey k a with
      | some v => some v
      | none => lookupKey k b := by
  induction a with
  | nil => simp [lookupKey]
  | cons hd tl ih =>
      obtain ⟨k2, v2⟩ := hd
      by_cases hk : k2 = k
      · simp [lookupKey, hk]
      · simp [lookupKey, hk, ih]

/-- Lookup in the key-preserving map part of a spread. -/
theorem lookupKey_map_spread (k : String) (old next : Params) :
    lookupKey k (old.map (fun kv => (kv.1, (lookupKey kv.1 next).getD kv.2))) =
      (lookupKey k old).map (fun v => (lookupKey k next).getD v) := by
  induction old with
  | nil => simp [lookupKey]
  | cons hd tl ih =>
      obtain ⟨k2, v2⟩ := hd
      by_cases hk : k2 = k
      · subst hk; simp [lookupKey]
      · simp [lookupKey, hk, ih]

/-- Lookup in the filter part of a spread, when the key is absent from `old`. -/
theorem lookupKey_filter_of_not_mem (k : String) (old next : Params)
    (h : lookupKey k old = none) :
    lookupKey k (next.filter (fun kv => (lookupKey kv.1 old).isNone)) =
      lookupKey k next := by
  induction next with
  | nil => simp
  | cons hd tl ih =>
      obtain ⟨k2, v2⟩ := hd
      by_cases hk : k2 = k
      · subst hk; simp [List.filter, h, lookupKey]
      · cases hd2 : (lookupKey k2 old).isNone with
        | true => simp [List.filter, hd2, lookupKey, hk, ih]
        | false => simp [List.filter, hd2, lookupKey, hk, ih]

/-- Lookup in the filter part of a spread, when the key occurs in `old`. -/
theorem lookupKey_filter_of_mem (k : String) (old next : Params) (v : TValue)
    (h : lookupKey k old = some v) :
    lookupKey k (next.filter (fun kv => (lookupKey kv.1 old).isNone)) = none := by
  induction next with
  | nil => simp [lookupKey]
  | cons hd tl ih =>
      obtain ⟨k2, v2⟩ := hd
      by_cases hk : k2 = k
      · subst hk; simp [List.filter, h, lookupKey, ih]
      · cases hd2 : (lookupKey k2 old).isNone with
        | true => simp [List.filter, hd2, lookupKey, hk, ih]
        | false => simp [List.filter, hd2, lookupKey, hk, ih]

/-- The JS spread `{ ...old, ...next }` looks keys up in `next` first, then `old`:
later keys win on conflict, entry by entry. -/
theorem lookupKey_jsSpread (old next : Params) (k : String) :
    lookupKey k (jsSpread old next) =
      match lookupKey k next with
      | some v => some v
      | none => lookupKey k old := by
  rw [jsSpread, lookupKey_append, lookupKey_map_spread]
  cases ho : lookupKey k old with
  | none =>
      simp only [Option.map_none']
      rw [lookupKey_filter_of_not_mem k old next ho]
      cases lookupKey k next <;> simp
  | some v =>
      simp only [Option.map_some']
      cases hn : lookupKey k next with
      | none => simp [hn]
      | some w => simp [hn]

/-- One operation never changes the fields other than the live `params` and
`delimiters` closure variables: the id, template, construction config, the frozen
`_params` / `_delimiters` properties, and the partials map are all preserved. -/
theorem applyOp_frame (p : PromptState) (op : PromptOp) :
    (applyOp p op).id = p.id ∧ (applyOp p op).template = p.template ∧
    (applyOp p op).config = p.config ∧
    (applyOp p op).paramsExposed = p.paramsExposed ∧
    (applyOp p op).delimitersExposed = p.delimitersExposed ∧
    (applyOp p op).partials = p.partials := by
  cases op <;> exact ⟨rfl, rfl, rfl, rfl, rfl, rfl⟩

/-- Any sequence of operations preserves the id, template, construction config, the
frozen `_params` / `_delimiters` properties, and the partials map. -/
theorem applyOps_frame (p : PromptState) (ops : List PromptOp) :
    (applyOps p ops).id = p.id ∧ (applyOps p ops).template = p.template ∧
    (applyOps p ops).config = p.config ∧
    (applyOps p ops).paramsExposed = p.paramsExposed ∧
    (applyOps p ops).delimitersExposed = p.delimitersExposed ∧
    (applyOps p ops).partials = p.partials := by
  induction ops generalizing p with
  | nil => exact ⟨rfl, rfl, rfl, rfl, rfl, rfl⟩
  | cons op ops ih =>
      have h1 := applyOp_frame p op
      have h2 := ih (applyOp p op)
      have hstep : applyOps p (op :: ops) = applyOps (applyOp p op) ops := rfl
      rw [hstep]
      exact ⟨h2.1.trans h1.1, h2.2.1.trans h1.2.1, h2.2.2.1.trans h1.2.2.1,
        h2.2.2.2.1.trans h1.2.2.2.1, h2.2.2.2.2.1.trans h1.2.2.2.2.1,
        h2.2.2.2.2.2.trans h1.2.2.2.2.2⟩

/-- A concrete Prompt, exactly `prompt('t')` constructed under the default
process-wide delimiters with identifier `"id0"`. -/
def demoPrompt : PromptState :=
  { id := "id0", template := "t", params := [], config := none,
    delimiters := ("[[", "]]"), paramsExposed := [], delimitersExposed := ("[[", "]]"),
    partials := [] }

/-- A concrete Prompt with one param and a config-supplied delimiter pair, exactly
`prompt('t', { a: 1 }, { delimiters: ['<', '>'] })` with identifier `"id1"`. -/
def demoPromptCfg : PromptState :=
  { id := "id1", template := "t", params := [("a", TValue.num 1)],
    config := some ("<", ">"), delimiters := ("<", ">"),
    paramsExposed := [("a", TValue.num 1)], delimitersExposed := ("<", ">"),
    partials := [] }

/-- A concrete Prompt whose single param value is `undefined`, exactly
`prompt('t', { a: undefined }, { delimiters: ['<%', '%>'] })` with identifier `"id0"`. -/
def undefPrompt : PromptState :=
  { id := "id0", template := "t", params := [("a", TValue.undef)],
    config := some ("<%", "%>"), delimiters := ("<%", "%>"),
    paramsExposed := [("a", TValue.undef)], delimitersExposed := ("<%", "%>"),
    partials := [] }

/-- A concrete Prompt whose single param value is `NaN`, exactly
`prompt('t', { a: NaN }, { delimiters: ['<%', '%>'] })` with identifier `"id0"`. -/
def nanPrompt : PromptState :=
  { id := "id0", template := "t", params := [("a", TValue.nan)],
    config := some ("<%", "%>"), delimiters := ("<%", "%>"),
    paramsExposed := [("a", TValue.nan)], delimitersExposed := ("<%", "%>"),
    partials := [] }

/-- A concrete renderer collaborator that succeeds, echoing the template. -/
def demoRenderer : Renderer := fun template _ _ _ => .ok template

/-- Claim C1, counterexample: on the Prompt constructed by `prompt('t')`,
`setDelimiters('', ']]')` does not fail — it replaces the active pair with
`('', ']]')`, which differs from the pair `('[[', ']]')` that was active before, so
the call neither raises a `ConfigurationError` nor leaves the pair unchanged. -/
theorem setDelimiters_empty_open_changes_pair :
    (promptCtor "id0" "t" [] none DEFAULT_DELIMITERS).map
        (fun p => ((setDelimiters p "" "]]").delimiters, p.delimiters)) =
      .ok (("", "]]"), ("[[", "]]")) ∧
    (("", "]]") : Delims) ≠ (("[[", "]]") : Delims) := by
  exact ⟨rfl, by decide⟩

/-- Claim C1, amended: `setDelimiters` performs no validation. For every constructed
Prompt and every non-empty `x`, `setDelimiters('', x)` and `setDelimiters(x, '')`
succeed, replace the active delimiter pair with the given empty-tagged pair, leave
every other field unchanged, and subsequent `toString` renders with the new pair. -/
theorem setDelimiters_no_validation (p : PromptState) (x : String) (hx : x ≠ "")
    (r : Renderer) :
    (setDelimiters p "" x).delimiters = ("", x) ∧
    (setDelimiters p x "").delimiters = (x, "") ∧
    (setDelimiters p "" x).id = p.id ∧
    (setDelimiters p "" x).template = p.template ∧
    (setDelimiters p "" x).params = p.params ∧
    (setDelimiters p "" x).config = p.config ∧
    promptToString r (setDelimiters p "" x) = r p.template p.params p.partials ("", x) := by
  exact ⟨rfl, rfl, rfl, rfl, rfl, rfl, rfl⟩

/-- Claim C1 witness: the amended claim instantiated at `prompt('t')`, `x = ']]'`
and the echoing renderer. -/
theorem setDelimiters_no_validation_witness :
    ("]]" : String) ≠ "" ∧
    ((setDelimiters demoPrompt "" "]]").delimiters = ("", "]]") ∧
    (setDelimiters demoPrompt "]]" "").delimiters = ("]]", "") ∧
    (setDelimiters demoPrompt "" "]]").id = demoPrompt.id ∧
    (setDelimiters demoPrompt "" "]]").template = demoPrompt.template ∧
    (setDelimiters demoPrompt "" "]]").params = demoPrompt.params ∧
    (setDelimiters demoPrompt "" "]]").config = demoPrompt.config ∧
    promptToString demoRenderer (setDelimiters demoPrompt "" "]]") =
      demoRenderer demoPrompt.template demoPrompt.params demoPrompt.partials ("", "]]")) :=
  ⟨by decide, setDelimiters_no_validation demoPrompt "]]" (by decide) demoRenderer⟩

/-- Claim C2: whenever the resolved delimiter pair (`config.delimiters ?? active`)
has an empty open or close tag, the constructor fails synchronously with the
configuration error, for every template, params and config. -/
theorem promptCtor_empty_delimiter_throws (id template : String) (params : Params)
    (config : Option Delims) (active : Delims)
    (h : (config.getD active).1.length = 0 ∨ (config.getD active).2.length = 0) :
    promptCtor id template params config active =
      .error (.configurationError
        ("Invalid prompt delimiters: " ++ (config.getD active).1 ++ ", " ++
          (config.getD active).2 ++ ". Delimiters must be at least 1 character long.")) := by
  simp only [promptCtor]
  rw [if_pos h]

/-- Claim C2 witness: `prompt('t', {}, { delimiters: ['', ']]'] })` throws the
configuration error. -/
theorem promptCtor_empty_delimiter_throws_witness :
    ((((some ("", "]]") : Option Delims)).getD DEFAULT_DELIMITERS).1.length = 0 ∨
      (((some ("", "]]") : Option Delims)).getD DEFAULT_DELIMITERS).2.length = 0) ∧
    promptCtor "id0" "t" [] (some ("", "]]")) DEFAULT_DELIMITERS =
      .error (.configurationError
        ("Invalid prompt delimiters: " ++
          (((some ("", "]]") : Option Delims)).getD DEFAULT_DELIMITERS).1 ++ ", " ++
          (((some ("", "]]") : Option Delims)).getD DEFAULT_DELIMITERS).2 ++
          ". Delimiters must be at least 1 character long.")) :=
  ⟨by decide,
    promptCtor_empty_delimiter_throws "id0" "t" [] (some ("", "]]")) DEFAULT_DELIMITERS
      (by decide)⟩

/-- Claim C3, counterexample: a config supplying the empty-tagged pair `('', ']]')`
does not resolve to the process-wide default — construction fails with the
configuration error instead of producing a Prompt. -/
theorem emptyConfigPair_throws_not_fallback :
    promptCtor "id0" "t" [] (some ("", "]]")) DEFAULT_DELIMITERS =
      .error (.configurationError
        "Invalid prompt delimiters: , ]]. Delimiters must be at least 1 character long.") ∧
    (promptCtor "id0" "t" [] (some ("", "]]")) DEFAULT_DELIMITERS).isOk = false := by
  exact ⟨rfl, rfl⟩

/-- Claim C3, amended: the initial active pair is `config.delimiters` whenever the
config supplies one (so with `config.delimiters` absent it is the process-wide default
captured by value at that moment); a config supplying an empty-tagged pair makes
construction fail rather than fall back to the default. In every successful
construction both resolved tags are non-empty. -/
theorem promptCtor_delimiter_resolution (id template : String) (params : Params)
    (config : Option Delims) (active : Delims) (p : PromptState)
    (h : promptCtor id template params config active = .ok p) :
    p.delimiters = config.getD active ∧
    (config = none → p.delimiters = active) ∧
    p.delimiters.1.length ≠ 0 ∧ p.delimiters.2.length ≠ 0 := by
  simp only [promptCtor] at h
  by_cases hc : (config.getD active).1.length = 0 ∨ (config.getD active).2.length = 0
  · rw [if_pos hc] at h; exact absurd h (by simp)
  · rw [if_neg hc] at h
    have hp : p.delimiters = config.getD active := by
      cases h; rfl
    push_neg at hc
    refine ⟨hp, ?_, ?_, ?_⟩
    · intro hnone; rw [hp, hnone]; rfl
    · rw [hp]; exact hc.1
    · rw [hp]; exact hc.2

/-- Claim C3 witness: the amended resolution rule at
`prompt('t', {}, { delimiters: ['<', '>'] })`. -/
theorem promptCtor_delimiter_resolution_witness :
    promptCtor "id1" "t" [("a", TValue.num 1)] (some ("<", ">")) DEFAULT_DELIMITERS =
      .ok demoPromptCfg ∧
    (demoPromptCfg.delimiters = ((some ("<", ">") : Option Delims)).getD DEFAULT_DELIMITERS ∧
      ((some ("<", ">") : Option Delims) = none →
        demoPromptCfg.delimiters = DEFAULT_DELIMITERS) ∧
      demoPromptCfg.delimiters.1.length ≠ 0 ∧ demoPromptCfg.delimiters.2.length ≠ 0) :=
  ⟨rfl,
    promptCtor_delimiter_resolution "id1" "t" [("a", TValue.num 1)] (some ("<", ">"))
      DEFAULT_DELIMITERS demoPromptCfg rfl⟩

/-- Claim C4: `setParams(next)` with `override` false shallow-merges `next` into the
current params key-by-key with `next`'s keys winning on conflict; with `override` true
it replaces the params wholesale; in both cases the same Prompt is returned (its id,
template, delimiters, config and every other field are untouched) and the operation is
total — no error is possible. -/
theorem setParams_merge_spec (p : PromptState) (next : Params) :
    (∀ k, lookupKey k (setParams p next false).params =
      match lookupKey k next with
      | some v => some v
      | none => lookupKey k p.params) ∧
    (setParams p next true).params = next ∧
    (∀ b, (setParams p next b).id = p.id ∧ (setParams p next b).template = p.template ∧
      (setParams p next b).delimiters = p.delimiters ∧
      (setParams p next b).config = p.config ∧
      (setParams p next b).partials = p.partials) := by
  refine ⟨fun k => ?_, rfl, fun b => ⟨rfl, rfl, rfl, rfl, rfl⟩⟩
  simpa [setParams] using lookupKey_jsSpread p.params next k

/-- A successful construction yields exactly the state the constructor builds: the
given id, template and params, the stored config, the resolved delimiters copied into
both the live pair and the frozen property, and an empty partials map. -/
theorem promptCtor_ok_fields (id template : String) (params : Params)
    (config : Option Delims) (active : Delims) (p : PromptState)
    (h : promptCtor id template params config active = .ok p) :
    p.id = id ∧ p.template = template ∧ p.params = params ∧ p.config = config ∧
    p.paramsExposed = params ∧ p.delimiters = config.getD active ∧
    p.delimitersExposed = config.getD active ∧ p.partials = [] := by
  simp only [promptCtor] at h
  by_cases hc : (config.getD active).1.length = 0 ∨ (config.getD active).2.length = 0
  · rw [if_pos hc] at h; exact absurd h (by simp)
  · rw [if_neg hc] at h
    cases h
    exact ⟨rfl, rfl, rfl, rfl, rfl, rfl, rfl, rfl⟩

/-- The operation sequence used in concrete instantiations:
one `setParams({ b: 2 })` call in default merge mode. -/
def opsW : List PromptOp := [PromptOp.setParamsOp [("b", TValue.num 2)] false]

/-- Claim C5: after any operation sequence, `toObject()` carries the construction id
and template, includes `params` exactly when the current effective params map is
non-empty (emitting the map itself, never an empty object), and includes `config`
exactly when the construction config was non-empty. -/
theorem toObject_shape (id template : String) (params : Params)
    (config : Option Delims) (active : Delims) (ops : List PromptOp) (p : PromptState)
    (h : promptCtor id template params config active = .ok p) :
    (toObject (applyOps p ops)).id = id ∧
    (toObject (applyOps p ops)).template = template ∧
    ((applyOps p ops).params = [] → (toObject (applyOps p ops)).params = none) ∧
    ((applyOps p ops).params ≠ [] →
      (toObject (applyOps p ops)).params = some (applyOps p ops).params) ∧
    (config = none → (toObject (applyOps p ops)).config = none) ∧
    (∀ d, config = some d → (toObject (applyOps p ops)).config = some d) := by
  obtain ⟨hid, htpl, _, hcfg, _, _, _, _⟩ :=
    promptCtor_ok_fields id template params config active p h
  obtain ⟨fid, ftpl, fcfg, _, _, _⟩ := applyOps_frame p ops
  refine ⟨?_, ?_, ?_, ?_, ?_, ?_⟩
  · show (applyOps p ops).id = id
    rw [fid, hid]
  · show (applyOps p ops).template = template
    rw [ftpl, htpl]
  · intro he; simp [toObject, he]
  · intro hne
    have hlen : ¬ (applyOps p ops).params.length = 0 := by
      simpa [List.length_eq_zero] using hne
    simp [toObject, hlen]
  · intro hnone
    show (applyOps p ops).config = none
    rw [fcfg, hcfg, hnone]
  · intro d hd
    show (applyOps p ops).config = some d
    rw [fcfg, hcfg, hd]

/-- Claim C5 witness: the shape of `toObject()` for
`prompt('t', { a: 1 }, { delimiters: ['<', '>'] })` after `setParams({ b: 2 })`. -/
theorem toObject_shape_witness :
    promptCtor "id1" "t" [("a", TValue.num 1)] (some ("<", ">")) DEFAULT_DELIMITERS =
      .ok demoPromptCfg ∧
    ((toObject (applyOps demoPromptCfg opsW)).id = "id1" ∧
      (toObject (applyOps demoPromptCfg opsW)).template = "t" ∧
      ((applyOps demoPromptCfg opsW).params = [] →
        (toObject (applyOps demoPromptCfg opsW)).params = none) ∧
      ((applyOps demoPromptCfg opsW).params ≠ [] →
        (toObject (applyOps demoPromptCfg opsW)).params =
          some (applyOps demoPromptCfg opsW).params) ∧
      ((some ("<", ">") : Option Delims) = none →
        (toObject (applyOps demoPromptCfg opsW)).config = none) ∧
      (∀ d, (some ("<", ">") : Option Delims) = some d →
        (toObject (applyOps demoPromptCfg opsW)).config = some d)) :=
  ⟨rfl,
    toObject_shape "id1" "t" [("a", TValue.num 1)] (some ("<", ">")) DEFAULT_DELIMITERS
      opsW demoPromptCfg rfl⟩

/-- Claim C6, counterexample: `prompt('t', { a: undefined }, { delimiters: ['<%','%>'] })`
and `prompt('t', { a: NaN }, { delimiters: ['<%','%>'] })` each have a non-empty
template, non-empty params and custom delimiters, yet the value denoted by the text
`toJSON()` emits is not deep-equal to `toObject()`'s result: JSON serialisation drops
the `undefined`-valued key `a` in the first and turns `NaN` into `null` in the second. -/
theorem roundTrip_drops_undefined_param :
    (promptCtor "id0" "t" [("a", TValue.undef)] (some ("<%", "%>")) DEFAULT_DELIMITERS =
        .ok undefPrompt ∧
      undefPrompt.template ≠ "" ∧ undefPrompt.params ≠ [] ∧
      undefPrompt.config = some ("<%", "%>") ∧
      roundTrip (serialiseJs (toObject undefPrompt)) ≠
        some (serialiseJs (toObject undefPrompt))) ∧
    (promptCtor "id0" "t" [("a", TValue.nan)] (some ("<%", "%>")) DEFAULT_DELIMITERS =
        .ok nanPrompt ∧
      nanPrompt.template ≠ "" ∧ nanPrompt.params ≠ [] ∧
      nanPrompt.config = some ("<%", "%>") ∧
      roundTrip (serialiseJs (toObject nanPrompt)) ≠
        some (serialiseJs (toObject nanPrompt))) := by
  refine ⟨⟨rfl, by decide, by simp [undefPrompt], rfl, ?_⟩,
    ⟨rfl, by decide, by simp [nanPrompt], rfl, ?_⟩⟩
  · simp [roundTrip, serialiseJs, toObject, undefPrompt, jsonOf, jsonOfFields,
      jsonOfArr, jvalToT, jvalToTFields, jvalToTArr]
  · simp [roundTrip, serialiseJs, toObject, nanPrompt, jsonOf, jsonOfFields,
      jsonOfArr, jvalToT, jvalToTFields, jvalToTArr]

/-- Claim C6, amended: `toJSON()` is exactly the JSON encoding of `toObject()`'s
result, and for every Prompt with non-empty template, non-empty params, custom
delimiters and only JSON-faithful param values — none of them `undefined`, `NaN`,
`±Infinity` or `-0` — parsing the emitted JSON text yields a value deep-equal to
`toObject()`'s result. Each excluded value breaks the round trip: JSON serialisation
drops an `undefined`-valued key, turns `NaN` and `±Infinity` into `null`, and `-0`
into `0`. -/
theorem toJSON_roundTrip (id template : String) (params : Params)
    (config : Option Delims) (active : Delims) (p : PromptState) (d : Delims)
    (h : promptCtor id template params config active = .ok p)
    (htpl : template ≠ "") (hpar : p.params ≠ []) (hcfg : config = some d)
    (hsafe : jsonSafeFields p.params = true) :
    promptToJSON p = jsonOf (serialiseJs (toObject p)) ∧
    roundTrip (serialiseJs (toObject p)) = some (serialiseJs (toObject p)) := by
  refine ⟨rfl, roundTrip_eq_of_jsonSafe _ ?_⟩
  obtain ⟨_, _, _, hcf, _, _, _, _⟩ :=
    promptCtor_ok_fields id template params config active p h
  have hlen : ¬ p.params.length = 0 := by simpa [List.length_eq_zero] using hpar
  simp [serialiseJs, toObject, hlen, hcf, hcfg, jsonSafe, jsonSafeFields, jsonSafeArr,
    hsafe]

/-- A concrete Prompt with a string param and custom delimiters, exactly
`prompt('hello', { name: 'Red' }, { delimiters: ['<%', '%>'] })` with id `"id0"`. -/
def redPrompt : PromptState :=
  { id := "id0", template := "hello", params := [("name", TValue.str "Red")],
    config := some ("<%", "%>"), delimiters := ("<%", "%>"),
    paramsExposed := [("name", TValue.str "Red")], delimitersExposed := ("<%", "%>"),
    partials := [] }

/-- Claim C6 witness: the amended round trip at
`prompt('hello', { name: 'Red' }, { delimiters: ['<%', '%>'] })`. -/
theorem toJSON_roundTrip_witness :
    promptCtor "id0" "hello" [("name", TValue.str "Red")] (some ("<%", "%>"))
        DEFAULT_DELIMITERS = .ok redPrompt ∧
    ("hello" : String) ≠ "" ∧ redPrompt.params ≠ [] ∧
    jsonSafeFields redPrompt.params = true ∧
    (promptToJSON redPrompt = jsonOf (serialiseJs (toObject redPrompt)) ∧
      roundTrip (serialiseJs (toObject redPrompt)) =
        some (serialiseJs (toObject redPrompt))) :=
  ⟨rfl, by decide, by simp [redPrompt], by decide,
    toJSON_roundTrip "id0" "hello" [("name", TValue.str "Red")] (some ("<%", "%>"))
      DEFAULT_DELIMITERS redPrompt ("<%", "%>") rfl (by decide) (by simp [redPrompt])
      rfl (by decide)⟩

/-- Claim C7: overriding the process-wide default pair is forward-only — it changes no
already-constructed Prompt (the whole store is untouched, so in particular a Prompt
constructed just before keeps its active pair), while a Prompt constructed afterwards
without a config override picks up exactly the new default. -/
theorem overrideGlobalDelimiters_forward_only (w : World) (o c : String)
    (ho : o.length ≠ 0) (hc : c.length ≠ 0) (id1 template1 : String) (params1 : Params)
    (config1 : Option Delims) (id2 template2 : String) (params2 : Params) :
    (worldOverride o c (worldConstruct id1 template1 params1 config1 w)).prompts =
      (worldConstruct id1 template1 params1 config1 w).prompts ∧
    (worldOverride o c (worldConstruct id1 template1 params1 config1 w)).active =
      (o, c) ∧
    ∃ p2, promptCtor id2 template2 params2 none
        (worldOverride o c (worldConstruct id1 template1 params1 config1 w)).active =
        .ok p2 ∧
      p2.delimiters = (o, c) := by
  refine ⟨rfl, rfl, ?_⟩
  refine ⟨{ id := id2, template := template2, params := params2, config := none,
            delimiters := (o, c), paramsExposed := params2,
            delimitersExposed := (o, c), partials := [] }, ?_, rfl⟩
  simp [promptCtor, worldOverride, overrideGlobalDelimiters, ho, hc]

/-- The initial process-wide state: default delimiters, no Prompts yet. -/
def w0 : World := { active := DEFAULT_DELIMITERS, prompts := [] }

/-- Claim C7 witness: the forward-only override at a world holding one Prompt
constructed under the defaults, then `overrideGlobalDelimiters('<%', '%>')`. -/
theorem overrideGlobalDelimiters_forward_only_witness :
    ("<%" : String).length ≠ 0 ∧ ("%>" : String).length ≠ 0 ∧
    ((worldOverride "<%" "%>" (worldConstruct "id0" "t" [] none w0)).prompts =
      (worldConstruct "id0" "t" [] none w0).prompts ∧
    (worldOverride "<%" "%>" (worldConstruct "id0" "t" [] none w0)).active =
      ("<%", "%>") ∧
    ∃ p2, promptCtor "id2" "u" [] none
        (worldOverride "<%" "%>" (worldConstruct "id0" "t" [] none w0)).active =
        .ok p2 ∧
      p2.delimiters = ("<%", "%>")) :=
  ⟨by decide, by decide,
    overrideGlobalDelimiters_forward_only w0
      "<%" "%>" (by decide) (by decide) "id0" "t" [] none "id2" "u" []⟩

/-- Claim C8: `toString()` hands the renderer exactly the current template, the
current params, the (always empty) partials map and the current active delimiters,
and returns the renderer's output unchanged — in particular a renderer failure
propagates to the caller with its message intact. -/
theorem toString_delegates_to_renderer (r : Renderer) (id template : String)
    (params : Params) (config : Option Delims) (active : Delims) (ops : List PromptOp)
    (p : PromptState) (h : promptCtor id template params config active = .ok p) :
    promptToString r (applyOps p ops) =
      r (applyOps p ops).template (applyOps p ops).params []
        (applyOps p ops).delimiters ∧
    (∀ e, r (applyOps p ops).template (applyOps p ops).params []
        (applyOps p ops).delimiters = .error e →
      promptToString r (applyOps p ops) = .error e) := by
  have hpt : (applyOps p ops).partials = [] := by
    have h1 := (applyOps_frame p ops).2.2.2.2.2
    have h2 := (promptCtor_ok_fields id template params config active p h).2.2.2.2.2.2.2
    rw [h1, h2]
  constructor
  · show r (applyOps p ops).template (applyOps p ops).params (applyOps p ops).partials
        (applyOps p ops).delimiters = _
    rw [hpt]
  · intro e he
    show r (applyOps p ops).template (applyOps p ops).params (applyOps p ops).partials
        (applyOps p ops).delimiters = _
    rw [hpt, he]

/-- Claim C8 witness: delegation for `prompt('t')` after `setParams({ b: 2 })`, with
the echoing renderer. -/
theorem toString_delegates_to_renderer_witness :
    promptCtor "id0" "t" [] none DEFAULT_DELIMITERS = .ok demoPrompt ∧
    (promptToString demoRenderer (applyOps demoPrompt opsW) =
      demoRenderer (applyOps demoPrompt opsW).template (applyOps demoPrompt opsW).params
        [] (applyOps demoPrompt opsW).delimiters ∧
    (∀ e, demoRenderer (applyOps demoPrompt opsW).template
        (applyOps demoPrompt opsW).params [] (applyOps demoPrompt opsW).delimiters =
        .error e →
      promptToString demoRenderer (applyOps demoPrompt opsW) = .error e)) :=
  ⟨rfl,
    toString_delegates_to_renderer demoRenderer "id0" "t" [] none DEFAULT_DELIMITERS
      opsW demoPrompt rfl⟩

/-- Claim C9: a Prompt's id is the construction-time id after every sequence of
`setParams` / `setDelimiters` operations, and `toObject()`'s id field always equals
it (`toString` / `toObject` / `toJSON` are observers and change nothing). -/
theorem prompt_id_immutable (id template : String) (params : Params)
    (config : Option Delims) (active : Delims) (ops : List PromptOp) (p : PromptState)
    (h : promptCtor id template params config active = .ok p) :
    p.id = id ∧ (applyOps p ops).id = id ∧ (toObject (applyOps p ops)).id = id := by
  have hid := (promptCtor_ok_fields id template params config active p h).1
  have fid := (applyOps_frame p ops).1
  exact ⟨hid, fid.trans hid, fid.trans hid⟩

/-- Claim C9 witness: id immutability for `prompt('t', { a: 1 }, ...)` under a
`setParams` call. -/
theorem prompt_id_immutable_witness :
    promptCtor "id1" "t" [("a", TValue.num 1)] (some ("<", ">")) DEFAULT_DELIMITERS =
      .ok demoPromptCfg ∧
    (demoPromptCfg.id = "id1" ∧ (applyOps demoPromptCfg opsW).id = "id1" ∧
      (toObject (applyOps demoPromptCfg opsW)).id = "id1") :=
  ⟨rfl,
    prompt_id_immutable "id1" "t" [("a", TValue.num 1)] (some ("<", ">"))
      DEFAULT_DELIMITERS opsW demoPromptCfg rfl⟩

/-- Claim C10: after `setParams`, the readonly `_params` property still holds the
construction-time params map, while `toObject` (hence `toJSON`) and `toString` read
the updated map — on `prompt('t')` followed by `setParams({ a: 1 })` the two
observably diverge (`toObject().params` is `{ a: 1 }`, `_params` is `{}`). -/
theorem paramsExposed_frozen_after_setParams (id template : String) (params : Params)
    (config : Option Delims) (active : Delims) (p : PromptState) (next : Params)
    (b : Bool) (r : Renderer)
    (h : promptCtor id template params config active = .ok p) :
    (setParams p next b).paramsExposed = params ∧
    (setParams p next b).params = (if b then next else jsSpread params next) ∧
    (toObject (setParams p next b)).params =
      (if (if b then next else jsSpread params next).length = 0 then none
        else some (if b then next else jsSpread params next)) ∧
    promptToString r (setParams p next b) =
      r template (if b then next else jsSpread params next) [] p.delimiters ∧
    (promptCtor "id0" "t" [] none DEFAULT_DELIMITERS = .ok demoPrompt ∧
      (toObject (setParams demoPrompt [("a", TValue.num 1)] false)).params =
        some [("a", TValue.num 1)] ∧
      (setParams demoPrompt [("a", TValue.num 1)] false).paramsExposed = [] ∧
      some [("a", TValue.num 1)] ≠ some ([] : Params)) := by
  obtain ⟨_, htpl, hpr, _, hpe, _, _, hpt⟩ :=
    promptCtor_ok_fields id template params config active p h
  refine ⟨?_, ?_, ?_, ?_, rfl, by rfl, rfl, by simp⟩
  · show p.paramsExposed = params
    exact hpe
  · show (if b then next else jsSpread p.params next) = _
    rw [hpr]
  · show (if (if b then next else jsSpread p.params next).length = 0 then none
        else some (if b then next else jsSpread p.params next)) = _
    rw [hpr]
  · show r p.template (if b then next else jsSpread p.params next) p.partials
        p.delimiters = _
    rw [hpr, htpl, hpt]

/-- Claim C10 witness: the frozen `_params` property versus the live params for
`prompt('t', { a: 1 }, { delimiters: ['<', '>'] })` and `setParams({ b: 2 })`. -/
theorem paramsExposed_frozen_after_setParams_witness :
    promptCtor "id1" "t" [("a", TValue.num 1)] (some ("<", ">")) DEFAULT_DELIMITERS =
      .ok demoPromptCfg ∧
    ((setParams demoPromptCfg [("b", TValue.num 2)] false).paramsExposed =
        [("a", TValue.num 1)] ∧
      (setParams demoPromptCfg [("b", TValue.num 2)] false).params =
        (if false then [("b", TValue.num 2)]
          else jsSpread [("a", TValue.num 1)] [("b", TValue.num 2)]) ∧
      (toObject (setParams demoPromptCfg [("b", TValue.num 2)] false)).params =
        (if (if false then [("b", TValue.num 2)]
            else jsSpread [("a", TValue.num 1)] [("b", TValue.num 2)]).length = 0
          then none
          else some (if false then [("b", TValue.num 2)]
            else jsSpread [("a", TValue.num 1)] [("b", TValue.num 2)])) ∧
      promptToString demoRenderer (setParams demoPromptCfg [("b", TValue.num 2)] false) =
        demoRenderer "t"
          (if false then [("b", TValue.num 2)]
            else jsSpread [("a", TValue.num 1)] [("b", TValue.num 2)]) []
          demoPromptCfg.delimiters ∧
      (promptCtor "id0" "t" [] none DEFAULT_DELIMITERS = .ok demoPrompt ∧
        (toObject (setParams demoPrompt [("a", TValue.num 1)] false)).params =
          some [("a", TValue.num 1)] ∧
        (setParams demoPrompt [("a", TValue.num 1)] false).paramsExposed = [] ∧
        some [("a", TValue.num 1)] ≠ some ([] : Params))) :=
  ⟨rfl,
    paramsExposed_frozen_after_setParams "id1" "t" [("a", TValue.num 1)]
      (some ("<", ">")) DEFAULT_DELIMITERS demoPromptCfg [("b", TValue.num 2)] false
      demoRenderer rfl⟩

end Reden
